import Mathlib

/-!
Verification of the `znbt` NBT type-ID module (`src/kind.rs`).

The Rust source defines a `repr(u8)` enum `Kind` with twelve variants whose
discriminants are the bytes 1 through 12, a checked constructor `Kind::new`,
an unchecked constructor `Kind::new_unchecked` (a transmute, guarded by a
`debug_assert!`), a forwarding `TryFrom<u8>` impl, and a unit error struct
`NbtKindError` with a fixed `Display` message.

We embed those definitions shallowly: the enum becomes a Lean inductive, the
raw-byte projection (`kind as u8`) becomes `Kind.toByte`, the transmute of
`new_unchecked` becomes a `Nat → Option Kind` function (`none` models the
undefined behaviour outside 1..=12), fallible `Kind::new` returns `Except`,
and the derived ordering, which Rust computes from the `repr(u8)`
discriminants, becomes a relation comparing `toByte` values.
-/

/-- The twelve NBT type IDs, mirroring `enum Kind` in `src/kind.rs`,
in declaration order. -/
inductive Kind where
  | Byte
  | Short
  | Int
  | Long
  | Float
  | Double
  | ByteArray
  | String
  | List
  | Compound
  | IntArray
  | LongArray
deriving DecidableEq, Repr, Fintype

/-- The raw-byte projection of a discriminant: the explicit `repr(u8)`
discriminant value assigned to each variant in the source (`Byte = 0x01`
through `LongArray = 0x0C`), i.e. the result of `kind as u8`. -/
def Kind.toByte : Kind → Nat
  | .Byte => 0x01
  | .Short => 0x02
  | .Int => 0x03
  | .Long => 0x04
  | .Float => 0x05
  | .Double => 0x06
  | .ByteArray => 0x07
  | .String => 0x08
  | .List => 0x09
  | .Compound => 0x0A
  | .IntArray => 0x0B
  | .LongArray => 0x0C

/-- The error struct `NbtKindError(pub(crate) ())`: a tuple struct whose only
field is the unit value, so it carries no data. -/
structure NbtKindError where
  payload : Unit
deriving DecidableEq, Repr

/-- The condition of the `debug_assert!(1 <= kind && kind <= 12)` inside
`Kind::new_unchecked`. -/
def Kind.new_unchecked_assert (kind : Nat) : Prop :=
  1 ≤ kind ∧ kind ≤ 12

instance (kind : Nat) : Decidable (Kind.new_unchecked_assert kind) :=
  inferInstanceAs (Decidable (1 ≤ kind ∧ kind ≤ 12))

/-- `Kind::new_unchecked`: `unsafe { mem::transmute(kind) }` on a `repr(u8)`
enum. The transmute is defined exactly when the byte is a valid discriminant
(1 through 12); any other input is undefined behaviour, modelled as `none`. -/
def Kind.new_unchecked (kind : Nat) : Option Kind :=
  match kind with
  | 0x01 => some .Byte
  | 0x02 => some .Short
  | 0x03 => some .Int
  | 0x04 => some .Long
  | 0x05 => some .Float
  | 0x06 => some .Double
  | 0x07 => some .ByteArray
  | 0x08 => some .String
  | 0x09 => some .List
  | 0x0A => some .Compound
  | 0x0B => some .IntArray
  | 0x0C => some .LongArray
  | _ => none

/-- `Kind::new`: `if 1 <= kind && kind <= 12 { Ok(unsafe { new_unchecked(kind) }) }
else { Err(NbtKindError(())) }`. The `Except.error` fallback inside the
then-branch is unreachable (the transmute is always defined in range, see
`Kind.new_unchecked_isSome_of_in_range`); it only makes the match total. -/
def Kind.new (kind : Nat) : Except NbtKindError Kind :=
  if 1 ≤ kind ∧ kind ≤ 12 then
    match Kind.new_unchecked kind with
    | some k => Except.ok k
    | none => Except.error ⟨()⟩
  else
    Except.error ⟨()⟩

/-- `impl TryFrom<u8> for Kind`: `try_from` just forwards to `Kind::new`. -/
def Kind.try_from (value : Nat) : Except NbtKindError Kind :=
  Kind.new value

/-- The derived `PartialOrd`/`Ord` on a fieldless `repr(u8)` enum compares the
discriminant values, i.e. the raw bytes. -/
def Kind.lt (a b : Kind) : Prop :=
  a.toByte < b.toByte

instance : DecidableRel Kind.lt :=
  fun a b => inferInstanceAs (Decidable (a.toByte < b.toByte))

/-- `impl Display for NbtKindError`: `fmt` writes a fixed string, independent
of the receiver. -/
def NbtKindError.display (_ : NbtKindError) : String :=
  "cannot convert from `u8` into `Kind`, value out of range"

/-- The derived `Debug` representation of `NbtKindError`: a unit tuple struct
prints as its name applied to the unit value, with no other payload. -/
def NbtKindError.debugFmt (_ : NbtKindError) : String :=
  "NbtKindError(())"

/-- All twelve discriminants in declaration order. -/
def kindAllInOrder : List Kind :=
  [.Byte, .Short, .Int, .Long, .Float, .Double,
   .ByteArray, .String, .List, .Compound, .IntArray, .LongArray]

/-- In range 1..=12 the transmute of `new_unchecked` is always defined, so
the fallback branch of `Kind.new` is dead code. -/
theorem Kind.new_unchecked_isSome_of_in_range
    (kind : Nat) (h1 : 1 ≤ kind) (h2 : kind ≤ 12) :
    (Kind.new_unchecked kind).isSome = true := by
  interval_cases kind <;> rfl

/-- A successful checked construction recovers a discriminant whose raw byte
is exactly the input byte. -/
theorem Kind.new_ok_toByte (b : Nat) (k : Kind) (h : Kind.new b = Except.ok k) :
    Kind.toByte k = b := by
  by_cases hr : 1 ≤ b ∧ b ≤ 12
  · obtain ⟨h1, h2⟩ := hr
    interval_cases b <;> cases k <;>
      first
        | rfl
        | exact absurd h (by simp [Kind.new, Kind.new_unchecked])
  · rw [Kind.new, if_neg hr] at h
    exact absurd h (by simp)

/-- C1: for every 8-bit value b, Kind.new b succeeds iff 1 ≤ b ≤ 12, and for
every out-of-range b (including 0 and 13..=255) it returns the out-of-range
error NbtKindError. -/
theorem C1_new_ok_iff_in_range (b : Nat) (hb : b < 256) :
    ((∃ k, Kind.new b = Except.ok k) ↔ (1 ≤ b ∧ b ≤ 12)) ∧
    (¬(1 ≤ b ∧ b ≤ 12) → Kind.new b = Except.error ⟨()⟩) := by
  constructor
  · constructor
    · rintro ⟨k, hk⟩
      by_contra h
      rw [Kind.new, if_neg h] at hk
      exact absurd hk (by simp)
    · intro h
      obtain ⟨k, hk⟩ :=
        Option.isSome_iff_exists.mp
          (Kind.new_unchecked_isSome_of_in_range b h.1 h.2)
      exact ⟨k, by rw [Kind.new, if_pos h, hk]⟩
  · intro h
    rw [Kind.new, if_neg h]

/-- Witness for C1 at the concrete bytes 5 (in range) and 13 (out of range). -/
theorem C1_witness :
    (((∃ k, Kind.new 5 = Except.ok k) ↔ (1 ≤ 5 ∧ 5 ≤ 12)) ∧
      (¬(1 ≤ 5 ∧ 5 ≤ 12) → Kind.new 5 = Except.error ⟨()⟩)) ∧
    (((∃ k, Kind.new 13 = Except.ok k) ↔ (1 ≤ 13 ∧ 13 ≤ 12)) ∧
      (¬(1 ≤ 13 ∧ 13 ≤ 12) → Kind.new 13 = Except.error ⟨()⟩)) :=
  ⟨C1_new_ok_iff_in_range 5 (by decide), C1_new_ok_iff_in_range 13 (by decide)⟩

/-- C2: each of the twelve discriminants projects to its canonical raw byte
(Byte=1 through LongArray=12), and in particular Kind.new 1 yields Byte and
Kind.new 10 yields Compound. -/
theorem C2_canonical_bytes :
    Kind.toByte Kind.Byte = 1 ∧ Kind.toByte Kind.Short = 2 ∧
    Kind.toByte Kind.Int = 3 ∧ Kind.toByte Kind.Long = 4 ∧
    Kind.toByte Kind.Float = 5 ∧ Kind.toByte Kind.Double = 6 ∧
    Kind.toByte Kind.ByteArray = 7 ∧ Kind.toByte Kind.String = 8 ∧
    Kind.toByte Kind.List = 9 ∧ Kind.toByte Kind.Compound = 10 ∧
    Kind.toByte Kind.IntArray = 11 ∧ Kind.toByte Kind.LongArray = 12 ∧
    Kind.new 1 = Except.ok Kind.Byte ∧ Kind.new 10 = Except.ok Kind.Compound :=
  ⟨rfl, rfl, rfl, rfl, rfl, rfl, rfl, rfl, rfl, rfl, rfl, rfl, rfl, rfl⟩

/-- C3: round-trip identity: checked construction applied to the raw-byte
projection of any discriminant returns that discriminant, and for every byte
b in 1..=12, the discriminant returned by Kind.new b projects back to b. -/
theorem C3_roundtrip :
    (∀ d : Kind, Kind.new (Kind.toByte d) = Except.ok d) ∧
    (∀ b : Nat, 1 ≤ b → b ≤ 12 →
      ∃ k, Kind.new b = Except.ok k ∧ Kind.toByte k = b) := by
  constructor
  · intro d
    cases d <;> rfl
  · intro b h1 h2
    interval_cases b <;> exact ⟨_, rfl, rfl⟩

/-- Witness for C3 at the concrete discriminant Compound and byte 7. -/
theorem C3_witness :
    Kind.new (Kind.toByte Kind.Compound) = Except.ok Kind.Compound ∧
    ∃ k, Kind.new 7 = Except.ok k ∧ Kind.toByte k = 7 :=
  ⟨C3_roundtrip.1 Kind.Compound, C3_roundtrip.2 7 (by decide) (by decide)⟩

/-- C4: the derived order on Kind agrees with the numeric order of the raw
bytes: constructing from a smaller valid byte gives a strictly smaller
discriminant, the twelve discriminants in declaration order are pairwise
strictly increasing, and converting the bytes 1..=12 in numeric order yields
exactly the declaration order. -/
theorem C4_order_matches_bytes :
    (∀ b1 b2 : Nat, ∀ k1 k2 : Kind,
      Kind.new b1 = Except.ok k1 → Kind.new b2 = Except.ok k2 →
      b1 < b2 → Kind.lt k1 k2) ∧
    List.Pairwise Kind.lt kindAllInOrder ∧
    (List.range' 1 12).filterMap (fun b => (Kind.new b).toOption)
      = kindAllInOrder := by
  refine ⟨?_, by decide, by decide⟩
  intro b1 b2 k1 k2 h1 h2 hlt
  have e1 := Kind.new_ok_toByte b1 k1 h1
  have e2 := Kind.new_ok_toByte b2 k2 h2
  rw [Kind.lt, e1, e2]
  exact hlt

/-- Witness for C4 at the concrete bytes 3 and 9. -/
theorem C4_witness : Kind.lt Kind.Int Kind.List :=
  C4_order_matches_bytes.1 3 9 Kind.Int Kind.List rfl rfl (by decide)

/-- C5: for every byte b in 1..=12, unchecked construction yields exactly the
same discriminant value that checked construction returns inside Ok, hence a
value observably identical under projection, equality, ordering and hashing. -/
theorem C5_unchecked_matches_checked (b : Nat) (h1 : 1 ≤ b) (h2 : b ≤ 12) :
    ∃ k, Kind.new_unchecked b = some k ∧ Kind.new b = Except.ok k := by
  interval_cases b <;> exact ⟨_, rfl, rfl⟩

/-- Witness for C5 at the concrete byte 12. -/
theorem C5_witness :
    ∃ k, Kind.new_unchecked 12 = some k ∧ Kind.new 12 = Except.ok k :=
  C5_unchecked_matches_checked 12 (by decide) (by decide)

/-- C6: invariant of the type: every value of Kind is one of the twelve
listed variants, and its underlying raw byte always lies in 1..=12. -/
theorem C6_invariant :
    (∀ k : Kind, k ∈ kindAllInOrder) ∧
    (∀ k : Kind, 1 ≤ Kind.toByte k ∧ Kind.toByte k ≤ 12) := by
  constructor
  · intro k
    cases k <;> decide
  · intro k
    cases k <;> exact ⟨by decide, by decide⟩

/-- C7: the error carries no data: any error returned by checked construction
displays the fixed out-of-range message, all NbtKindError values are equal
(so the offending byte is not retained), and the default (Debug)
representation contains no digit, hence no numeric payload. -/
theorem C7_error_no_payload (b : Nat) (e : NbtKindError)
    (h : Kind.new b = Except.error e) :
    NbtKindError.display e =
      "cannot convert from `u8` into `Kind`, value out of range" ∧
    (∀ e2 : NbtKindError, e = e2) ∧
    (∀ c ∈ (NbtKindError.debugFmt e).data, c.isDigit = false) := by
  obtain ⟨⟨⟩⟩ := e
  refine ⟨rfl, ?_, by decide⟩
  rintro ⟨⟨⟩⟩
  rfl

/-- Witness for C7 at the concrete failing byte 0. -/
theorem C7_witness :
    NbtKindError.display ⟨()⟩ =
      "cannot convert from `u8` into `Kind`, value out of range" ∧
    (∀ e2 : NbtKindError, (⟨()⟩ : NbtKindError) = e2) ∧
    (∀ c ∈ (NbtKindError.debugFmt ⟨()⟩).data, c.isDigit = false) :=
  C7_error_no_payload 0 ⟨()⟩ rfl

/-- C8: checked construction is total over all 256 input bytes: it always
returns either an Ok discriminant or the error value, never anything else
(no panic or abort is modelled because none can occur). -/
theorem C8_new_total (b : Nat) (hb : b < 256) :
    (∃ k, Kind.new b = Except.ok k) ∨ Kind.new b = Except.error ⟨()⟩ := by
  by_cases hr : 1 ≤ b ∧ b ≤ 12
  · left
    obtain ⟨k, hk⟩ :=
      Option.isSome_iff_exists.mp
        (Kind.new_unchecked_isSome_of_in_range b hr.1 hr.2)
    exact ⟨k, by rw [Kind.new, if_pos hr, hk]⟩
  · right
    rw [Kind.new, if_neg hr]

/-- Witness for C8 at the concrete byte 255. -/
theorem C8_witness :
    (∃ k, Kind.new 255 = Except.ok k) ∨ Kind.new 255 = Except.error ⟨()⟩ :=
  C8_new_total 255 (by decide)

/-- C9: under the caller precondition 1 ≤ kind ≤ 12, the debug-time assertion
inside new_unchecked holds, and on exactly those inputs the transmute is
defined (the safety contract admits them). -/
theorem C9_debug_assert_holds (kind : Nat) (h1 : 1 ≤ kind) (h2 : kind ≤ 12) :
    Kind.new_unchecked_assert kind ∧
    (Kind.new_unchecked_assert kind ↔ (Kind.new_unchecked kind).isSome = true) := by
  refine ⟨⟨h1, h2⟩, ?_⟩
  constructor
  · intro h
    exact Kind.new_unchecked_isSome_of_in_range kind h.1 h.2
  · intro _
    exact ⟨h1, h2⟩

/-- Witness for C9 at the concrete byte 1. -/
theorem C9_witness :
    Kind.new_unchecked_assert 1 ∧
    (Kind.new_unchecked_assert 1 ↔ (Kind.new_unchecked 1).isSome = true) :=
  C9_debug_assert_holds 1 (by decide) (by decide)

/-- C10: the TryFrom conversion path returns exactly the same result as
Kind.new on every 8-bit input: it forwards to it. -/
theorem C10_try_from_eq_new (value : Nat) (hv : value < 256) :
    Kind.try_from value = Kind.new value :=
  rfl

/-- Witness for C10 at the concrete byte 200. -/
theorem C10_witness : Kind.try_from 200 = Kind.new 200 :=
  C10_try_from_eq_new 200 (by decide)
